import Mathlib

/-!
Verification of the Berlin Open Data metadata quality assessment (MQA) scoring
module, a shallow embedding of `src/metadata_quality_assessment.py`.

Python values occurring in dataset records are modelled by the inductive type
`Value` (None, bool, int, str, list, dict); a dataset record ("metadata") is an
association list from field names to values, looked up first-match like a
Python dict.  Fallible Python code (code that can raise) is embedded in
`Except Unit`.  The network probe performed by `requests.head` is an explicit
oracle parameter `probe : String → Except Unit Int` returning either a status
code or an exception.
-/

namespace MQA

/-- Model of the Python values that can appear in a dataset record. -/
inductive Value : Type where
  | none : Value
  | bool : Bool → Value
  | int : Int → Value
  | str : String → Value
  | list : List Value → Value
  | dict : List (String × Value) → Value

/-- A dataset record: a Python dict from field names to values. -/
abbrev Metadata := List (String × Value)

/-- Python truthiness of a value (`bool(v)`). -/
def pyTruthy : Value → Bool
  | .none => false
  | .bool b => b
  | .int n => decide (n ≠ 0)
  | .str s => decide (s ≠ "")
  | .list l => !l.isEmpty
  | .dict kvs => !kvs.isEmpty

/-- Dict lookup (`metadata[field]` / `field in metadata`), first match wins. -/
def lookupV : Metadata → String → Option Value
  | [], _ => Option.none
  | (k, v) :: rest, f => if k = f then Option.some v else lookupV rest f

/-- Python `{**md, k: v}`: replace the value at `k` if the key exists
(keeping its position), otherwise append the binding at the end. -/
def dictSet : Metadata → String → Value → Metadata
  | [], k, v => [(k, v)]
  | (k0, v0) :: rest, k, v =>
    if k0 = k then (k, v) :: rest else (k0, v0) :: dictSet rest k v

/-- Python `str.lower()` (basic latin letters, as in the data at hand). -/
def pyLower (s : String) : String :=
  String.mk (s.data.map Char.toLower)

/-- Whether `s.strip() == ""` in Python: every character is whitespace
(this includes the empty string). -/
def isBlank (s : String) : Bool :=
  s.data.all Char.isWhitespace

/-- Python `str.strip()`: drop leading and trailing whitespace. -/
def pyStrip (s : String) : String :=
  String.mk (((s.data.dropWhile Char.isWhitespace).reverse.dropWhile Char.isWhitespace).reverse)

/-- Whether `sub` occurs as a contiguous substring of `l` (Python `sub in s`). -/
def infixCheck (sub : List Char) : List Char → Bool
  | [] => sub.isEmpty
  | c :: rest => sub.isPrefixOf (c :: rest) || infixCheck sub rest

/-- Python `sub in s` on strings. -/
def strIn (sub s : String) : Bool :=
  infixCheck sub.data s.data

/-- Python iteration `for x in v`: characters of a string, elements of a
list, keys of a dict; raises (TypeError) for None/bool/int. -/
def pyIter : Value → Except Unit (List Value)
  | .str s => Except.ok (s.data.map (fun c => Value.str (String.mk [c])))
  | .list l => Except.ok l
  | .dict kvs => Except.ok (kvs.map (fun kv => Value.str kv.1))
  | _ => Except.error ()

/-! ## Constants and configuration (transcribed from the source) -/

/-- Accepted MIME types from data.europa.eu and DCAT-AP.de. -/
def ACCEPTED_MIME_TYPES : List String := [
  "text/csv", "application/json", "application/xml",
  "application/geopackage+sqlite3", "application/gml+xml",
  "application/vnd.ms-excel", "application/vnd.openxmlformats-officedocument.spreadsheetml.sheet",
  "application/zip", "application/pdf", "application/wfs", "application/wms"
]

/-- Non-proprietary formats. -/
def NON_PROPRIETARY_FORMATS : List String := [
  "csv", "json", "xml", "gml", "geojson", "gpkg", "txt", "markdown", "md",
  "html", "htm", "zip", "rdf", "nt", "ttl", "n3", "jsonld", "trig", "wfs", "wms"
]

/-- Machine-readable formats. -/
def MACHINE_READABLE_FORMATS : List String := [
  "csv", "json", "xml", "rdf", "nt", "ttl", "n3", "jsonld", "trig",
  "geojson", "gpkg", "gml", "xlsx", "xls", "ods", "wfs"
]

/-- Valid DCAT-AP.de license IDs. -/
def VALID_DCAT_AP_DE_LICENSES : List String := [
  "cc-zero", "cc-by", "cc-by-sa", "cc-by/4.0", "cc-nc",
  "dl-de-zero-2.0", "dl-de-by-2.0", "odc-odbl", "CC BY 3.0 DE",
  "other-closed"
]

/-- Values that indicate hidden nulls. -/
def HIDDEN_NULLS : List String := [
  "", "null", "[]", "\x7b\x7d", "nan", "none", "ohne angabe",
  "keine angabe", "nichts", "N/A", "n/a"
]

/-- Common formats used in the Berlin data portal
(the local list inside `check_format_in_register`). -/
def COMMON_FORMATS : List String := [
  "csv", "json", "xml", "wfs", "wms", "pdf", "zip", "xls", "xlsx",
  "html", "geojson", "gml", "kml", "shp", "gpkg", "gis"
]

/-- Maximum points per dimension. -/
def MAX_POINTS_PER_DIMENSION : String → Int
  | "Findability" => 100
  | "Accessibility" => 100
  | "Interoperability" => 110
  | "Reusability" => 75
  | "Context" => 20
  | _ => 0

/-! ## Helper functions from the source -/

/-- Clamp a score between 0 and max_points. -/
def clamp_score (value maxPoints : Int) : Int :=
  max 0 (min value maxPoints)

/-- Presence decision on an already looked-up value (the body of
`check_presence` after the key/None handling). -/
def presentValue : Value → Bool
  | .none => false
  | .str s => !(HIDDEN_NULLS.contains (pyLower s) || isBlank s)
  | .list l => !(l.isEmpty || l.all (fun item => !pyTruthy item))
  | .dict kvs => !kvs.isEmpty
  | _ => true

/-- `check_presence(metadata, field_name)`: True iff the field is present and
not "empty" in the sense of the source's hidden-null handling. -/
def check_presence (metadata : Metadata) (field_name : String) : Bool :=
  match lookupV metadata field_name with
  | Option.none => false
  | Option.some v => presentValue v

/-- `is_url_accessible(url)`: never raises; False on any exception from the
probe, otherwise True exactly when the status code is below 400. -/
def is_url_accessible (probe : String → Except Unit Int) (url : String) : Bool :=
  match probe url with
  | Except.ok code => decide (code < 400)
  | Except.error _ => false

/-- `requests.head` applied to a non-string raises inside the `try`, which
`is_url_accessible` turns into False. -/
def urlValueAccessible (probe : String → Except Unit Int) : Value → Bool
  | .str s => is_url_accessible probe s
  | _ => false

/-- `check_format_in_register(format_value)`. -/
def check_format_in_register (format_value : String) : Bool :=
  if format_value = "" then false
  else
    let format_lower := pyLower format_value
    if ACCEPTED_MIME_TYPES.any (fun mime => strIn format_lower (pyLower mime)) then true
    else if COMMON_FORMATS.contains format_lower then true
    else COMMON_FORMATS.any (fun fmt => strIn fmt format_lower)

/-- Shared body of `extract_resources_formats` / `_mimetypes` / `_urls`:
walk the "resources" list, collecting the lower-cased value of `key` from
each resource dict whose value is truthy, non-blank and not a hidden null.
A truthy non-string value raises (`.strip()` on a non-string). -/
def extractResourceField (key : String) (metadata : Metadata) : Except Unit (List String) :=
  match lookupV metadata "resources" with
  | Option.some (.list rs) =>
    rs.foldlM (fun acc r =>
      match r with
      | .dict kvs =>
        match lookupV kvs key with
        | Option.some (.str s) =>
          if !isBlank s && !HIDDEN_NULLS.contains (pyLower s) then
            Except.ok (acc ++ [pyLower s])
          else
            Except.ok acc
        | Option.some fv => if pyTruthy fv then Except.error () else Except.ok acc
        | Option.none => Except.ok acc
      | _ => Except.ok acc) []
  | _ => Except.ok []

/-- `extract_resources_formats(metadata)`. -/
def extract_resources_formats : Metadata → Except Unit (List String) :=
  extractResourceField "format"

/-- `extract_resources_mimetypes(metadata)`. -/
def extract_resources_mimetypes : Metadata → Except Unit (List String) :=
  extractResourceField "mimetype"

/-- `extract_resources_urls(metadata)`. -/
def extract_resources_urls : Metadata → Except Unit (List String) :=
  extractResourceField "url"

/-! ## Indicator tables

Each indicator is a rule with a name, a DCAT field tag, a weight and a
predicate over a dataset record.  Predicates that can raise in Python are
embedded in `Except Unit`; short-circuiting of `and` / `or` is reproduced
exactly (a short-circuited operand is never evaluated, so it cannot raise). -/

/-- An MQA indicator: name, field tag, weight, and fallible predicate. -/
structure Indicator : Type where
  name : String
  field : String
  max_points : Int
  check : Metadata → Except Unit Bool

/-- Findability / Keywords: `tags` present, a list, and non-empty. -/
def find_keywords_check (meta : Metadata) : Except Unit Bool :=
  Except.ok (check_presence meta "tags" &&
    (match lookupV meta "tags" with
     | Option.some (.list l) => decide (l.length > 0)
     | _ => false))

/-- Findability / Categories: `groups` present, a list, and non-empty. -/
def find_categories_check (meta : Metadata) : Except Unit Bool :=
  Except.ok (check_presence meta "groups" &&
    (match lookupV meta "groups" with
     | Option.some (.list l) => decide (l.length > 0)
     | _ => false))

/-- Findability / Spatial coverage. -/
def find_spatial_check (meta : Metadata) : Except Unit Bool :=
  Except.ok (check_presence meta "geographical_coverage")

/-- Findability / Temporal coverage: either bound present. -/
def find_temporal_check (meta : Metadata) : Except Unit Bool :=
  Except.ok (check_presence meta "temporal_coverage_from" ||
             check_presence meta "temporal_coverage_to")

def INDICATORS_FINDABILITY : List Indicator := [
  { name := "Keywords (Schlagwörter)", field := "dcat:keyword",
    max_points := 30, check := find_keywords_check },
  { name := "Categories (Kategorien)", field := "dcat:theme",
    max_points := 30, check := find_categories_check },
  { name := "Spatial Coverage (Räumliche Abdeckung)", field := "dct:spatial",
    max_points := 20, check := find_spatial_check },
  { name := "Temporal Coverage (Zeitliche Abdeckung)", field := "dct:temporal",
    max_points := 20, check := find_temporal_check }
]

/-- Accessibility / Access URL reachable. -/
def access_url_check (probe : String → Except Unit Int) (meta : Metadata) : Except Unit Bool :=
  Except.ok (check_presence meta "url" &&
    (match lookupV meta "url" with
     | Option.some v => urlValueAccessible probe v
     | Option.none => false))

/-- Accessibility / Download URL present: some resource URL extracted. -/
def download_url_check (meta : Metadata) : Except Unit Bool :=
  if check_presence meta "resources" then do
    let urls ← extract_resources_urls meta
    Except.ok (decide (urls.length > 0))
  else Except.ok false

/-- Accessibility / Download URL reachable: some extracted resource URL is
accessible. -/
def download_url_accessible_check (probe : String → Except Unit Int)
    (meta : Metadata) : Except Unit Bool :=
  if check_presence meta "resources" then do
    let urls ← extract_resources_urls meta
    Except.ok (urls.any (is_url_accessible probe))
  else Except.ok false

def INDICATORS_ACCESSIBILITY (probe : String → Except Unit Int) : List Indicator := [
  { name := "Access URL Accessibility (Zugänglichkeit der AccessURL)",
    field := "dcat:accessURL_is_reachable", max_points := 50,
    check := access_url_check probe },
  { name := "Download URL Presence (Download URL vorhanden)",
    field := "dcat:downloadURL", max_points := 20, check := download_url_check },
  { name := "Download URL Accessibility (Zugänglichkeit der Download URL)",
    field := "dcat:downloadURL_is_reachable", max_points := 30,
    check := download_url_accessible_check probe }
]

/-- Interoperability / Format: some resource format extracted. -/
def interop_format_check (meta : Metadata) : Except Unit Bool :=
  if check_presence meta "resources" then do
    let fs ← extract_resources_formats meta
    Except.ok (decide (fs.length > 0))
  else Except.ok false

/-- Interoperability / Media type: some resource mimetype extracted. -/
def interop_mediatype_check (meta : Metadata) : Except Unit Bool :=
  if check_presence meta "resources" then do
    let ms ← extract_resources_mimetypes meta
    Except.ok (decide (ms.length > 0))
  else Except.ok false

/-- Interoperability / Format or media type from vocabulary.  The Python
expression is `A and B or C`: `C` is only evaluated when `A and B` is falsy. -/
def interop_vocab_check (meta : Metadata) : Except Unit Bool := do
  let ab ←
    if check_presence meta "resources" then do
      let fs ← extract_resources_formats meta
      Except.ok (fs.any check_format_in_register)
    else Except.ok false
  if ab then Except.ok true
  else do
    let ms ← extract_resources_mimetypes meta
    Except.ok (ms.any (fun mime => ACCEPTED_MIME_TYPES.contains mime))

/-- Interoperability / Non-proprietary format. -/
def interop_nonproprietary_check (meta : Metadata) : Except Unit Bool :=
  if check_presence meta "resources" then do
    let fs ← extract_resources_formats meta
    Except.ok (fs.any (fun fmt => NON_PROPRIETARY_FORMATS.contains (pyLower fmt)))
  else Except.ok false

/-- Interoperability / Machine readability. -/
def interop_machine_readable_check (meta : Metadata) : Except Unit Bool :=
  if check_presence meta "resources" then do
    let fs ← extract_resources_formats meta
    Except.ok (fs.any (fun fmt => MACHINE_READABLE_FORMATS.contains (pyLower fmt)))
  else Except.ok false

/-- Interoperability / DCAT-AP.de conformity: automatically granted. -/
def interop_conformity_check (_meta : Metadata) : Except Unit Bool :=
  Except.ok true

def INDICATORS_INTEROPERABILITY : List Indicator := [
  { name := "Format", field := "dct:format", max_points := 20,
    check := interop_format_check },
  { name := "Media Type (Medientyp)", field := "dcat:mediaType", max_points := 10,
    check := interop_mediatype_check },
  { name := "Format/Media Type from Vocabulary (Format/Medientyp aus Vokabular)",
    field := "format_media_vocab_check", max_points := 10,
    check := interop_vocab_check },
  { name := "Non-proprietary (Nicht-proprietär)",
    field := "non_proprietary_format_check", max_points := 20,
    check := interop_nonproprietary_check },
  { name := "Machine-readability (Maschinenlesbarkeit)",
    field := "machine_readable_format_check", max_points := 20,
    check := interop_machine_readable_check },
  { name := "DCAT-AP.de Conformity (DCAT-AP.de Konformität)",
    field := "dcat_ap_de_conformance", max_points := 30,
    check := interop_conformity_check }
]

/-- Reusability / License present. -/
def reuse_license_check (meta : Metadata) : Except Unit Bool :=
  Except.ok (check_presence meta "license_id")

/-- Reusability / License from vocabulary.  `meta.get("license_id", "").lower()`
raises (AttributeError) when the value is a non-string. -/
def reuse_license_vocab_check (meta : Metadata) : Except Unit Bool :=
  if check_presence meta "license_id" then
    match lookupV meta "license_id" with
    | Option.some (.str s) =>
      Except.ok ((VALID_DCAT_AP_DE_LICENSES.map pyLower).contains (pyLower s))
    | Option.some _ => Except.error ()
    | Option.none =>
      Except.ok ((VALID_DCAT_AP_DE_LICENSES.map pyLower).contains (pyLower ""))
  else Except.ok false

/-- Reusability / Access rights level: automatically granted. -/
def reuse_access_rights_check (_meta : Metadata) : Except Unit Bool :=
  Except.ok true

/-- Reusability / Access rights vocabulary: automatically granted. -/
def reuse_access_rights_vocab_check (_meta : Metadata) : Except Unit Bool :=
  Except.ok true

/-- Reusability / Contact point: maintainer name or email. -/
def reuse_contact_check (meta : Metadata) : Except Unit Bool :=
  Except.ok (check_presence meta "maintainer" || check_presence meta "maintainer_email")

/-- Reusability / Publisher: author or the (flat) key "organization.title". -/
def reuse_publisher_check (meta : Metadata) : Except Unit Bool :=
  Except.ok (check_presence meta "author" || check_presence meta "organization.title")

def INDICATORS_REUSABILITY : List Indicator := [
  { name := "License (Lizenz)", field := "dct:license", max_points := 20,
    check := reuse_license_check },
  { name := "License Vocabulary (Lizenzvokabular)", field := "license_vocab_check",
    max_points := 10, check := reuse_license_vocab_check },
  { name := "Access Rights Level (Zugänglichkeitsgrad)", field := "dct:accessRights",
    max_points := 10, check := reuse_access_rights_check },
  { name := "Access Rights from Vocabulary (Zugänglichkeitsgrad aus Vokabular)",
    field := "access_rights_vocab_check", max_points := 5,
    check := reuse_access_rights_vocab_check },
  { name := "Contact Point (Kontakt)", field := "dcat:contactPoint",
    max_points := 20, check := reuse_contact_check },
  { name := "Publisher (Publizierender)", field := "dct:publisher",
    max_points := 10, check := reuse_publisher_check }
]

/-- Context / Usage terms: license title present. -/
def context_usage_terms_check (meta : Metadata) : Except Unit Bool :=
  Except.ok (check_presence meta "license_title")

/-- Context / Byte size: some resource dict has a present "size".  Iterating
`meta["resources"]` raises when the value is truthy but not iterable. -/
def context_byte_size_check (meta : Metadata) : Except Unit Bool :=
  if check_presence meta "resources" then
    match lookupV meta "resources" with
    | Option.some v => do
      let elems ← pyIter v
      Except.ok (elems.any (fun r =>
        match r with
        | .dict kvs => check_presence kvs "size"
        | _ => false))
    | Option.none => Except.ok false
  else Except.ok false

/-- Context / Release date present. -/
def context_release_date_check (meta : Metadata) : Except Unit Bool :=
  Except.ok (check_presence meta "date_released")

/-- Context / Modification date present. -/
def context_modification_date_check (meta : Metadata) : Except Unit Bool :=
  Except.ok (check_presence meta "date_updated")

def INDICATORS_CONTEXT : List Indicator := [
  { name := "Usage Terms (Nutzungsbedingungen)", field := "dct:rights",
    max_points := 5, check := context_usage_terms_check },
  { name := "Byte Size (Grösse in Bytes)", field := "dcat:byteSize",
    max_points := 5, check := context_byte_size_check },
  { name := "Release Date (Veröffentlichungsdatum)", field := "dct:issued",
    max_points := 5, check := context_release_date_check },
  { name := "Modification Date (Aktualisierungsdatum)", field := "dct:modified",
    max_points := 5, check := context_modification_date_check }
]

/-! ## Distribution scoring and the main scoring function -/

/-- The inner loop of `get_best_distribution_score`: score one resource by
evaluating every indicator on `{**metadata, "resource": resource}` and summing
the weights of the passing ones. -/
def distributionScore (metadata : Metadata) (resource : Value) :
    List Indicator → Except Unit Int
  | [] => Except.ok 0
  | ind :: rest => do
    let passed ← ind.check (dictSet metadata "resource" resource)
    let s ← distributionScore metadata resource rest
    Except.ok ((if passed then ind.max_points else 0) + s)

/-- The outer loop of `get_best_distribution_score`: running maximum of the
per-resource scores. -/
def bestDistributionLoop (metadata : Metadata) (inds : List Indicator) :
    List Value → Int → Except Unit Int
  | [], best => Except.ok best
  | r :: rest, best => do
    let s ← distributionScore metadata r inds
    bestDistributionLoop metadata inds rest (max best s)

/-- `get_best_distribution_score(metadata, indicator_functions)`: 0 when the
"resources" field is absent or falsy, otherwise the maximum per-resource score
(iterating the "resources" value as Python does). -/
def get_best_distribution_score (metadata : Metadata) (inds : List Indicator) :
    Except Unit Int :=
  match lookupV metadata "resources" with
  | Option.none => Except.ok 0
  | Option.some v =>
    if pyTruthy v then do
      let elems ← pyIter v
      bestDistributionLoop metadata inds elems 0
    else Except.ok 0

/-- Detailed per-indicator result recorded in the scoring output. -/
structure IndicatorDetail : Type where
  indicator : String
  field : String
  max_points : Int
  points : Int
  passed : Bool

/-- Standard dimension scoring loop: evaluate each indicator on the full
dataset, accumulating the dimension score and the detail rows in order. -/
def scoreIndicators (metadata : Metadata) : List Indicator → Except Unit (Int × List IndicatorDetail)
  | [] => Except.ok (0, [])
  | ind :: rest => do
    let passed ← ind.check metadata
    let pts := if passed then ind.max_points else 0
    let tail ← scoreIndicators metadata rest
    Except.ok (pts + tail.1,
      ⟨ind.name, ind.field, ind.max_points, pts, passed⟩ :: tail.2)

/-- The detail-recording loop of the Interoperability branch (evaluates every
indicator on the full dataset, without affecting the dimension score). -/
def indicatorDetails (metadata : Metadata) : List Indicator → Except Unit (List IndicatorDetail)
  | [] => Except.ok []
  | ind :: rest => do
    let passed ← ind.check metadata
    let tail ← indicatorDetails metadata rest
    Except.ok (⟨ind.name, ind.field, ind.max_points,
      if passed then ind.max_points else 0, passed⟩ :: tail)

/-- `get_final_rating(score)`. -/
def get_final_rating (score : Int) : String :=
  if 351 ≤ score ∧ score ≤ 405 then "Ausgezeichnet"
  else if 221 ≤ score ∧ score ≤ 350 then "Gut"
  else if 121 ≤ score ∧ score ≤ 220 then "Ausreichend"
  else "Mangelhaft"

/-- The result of `calculate_mqa_score`. -/
structure MQAResult : Type where
  dimension_scores : List (String × Int)
  total_score : Int
  rating : String
  detailed_results : List (String × List IndicatorDetail)

/-- `calculate_mqa_score(metadata)`: the dimension loop of the source unrolled
over the five fixed dimensions, in dict-insertion order, with the
Interoperability dimension scored by `get_best_distribution_score` and every
dimension score clamped to its ceiling from `MAX_POINTS_PER_DIMENSION`. -/
def calculate_mqa_score (probe : String → Except Unit Int) (metadata : Metadata) :
    Except Unit MQAResult := do
  let f ← scoreIndicators metadata INDICATORS_FINDABILITY
  let a ← scoreIndicators metadata (INDICATORS_ACCESSIBILITY probe)
  let i ← get_best_distribution_score metadata INDICATORS_INTEROPERABILITY
  let iDetails ← indicatorDetails metadata INDICATORS_INTEROPERABILITY
  let r ← scoreIndicators metadata INDICATORS_REUSABILITY
  let c ← scoreIndicators metadata INDICATORS_CONTEXT
  let fClamped := clamp_score f.1 (MAX_POINTS_PER_DIMENSION "Findability")
  let aClamped := clamp_score a.1 (MAX_POINTS_PER_DIMENSION "Accessibility")
  let iClamped := clamp_score i (MAX_POINTS_PER_DIMENSION "Interoperability")
  let rClamped := clamp_score r.1 (MAX_POINTS_PER_DIMENSION "Reusability")
  let cClamped := clamp_score c.1 (MAX_POINTS_PER_DIMENSION "Context")
  let total := fClamped + aClamped + iClamped + rClamped + cClamped
  Except.ok {
    dimension_scores := [("Findability", fClamped), ("Accessibility", aClamped),
      ("Interoperability", iClamped), ("Reusability", rClamped), ("Context", cClamped)],
    total_score := total,
    rating := get_final_rating total,
    detailed_results := [("Findability", f.2), ("Accessibility", a.2),
      ("Interoperability", iDetails), ("Reusability", r.2), ("Context", c.2)] }

/-! ## Batch driver (`process_datasets`) -/

/-- One flat output row of the batch driver. -/
structure ResultRow : Type where
  id : Value
  title : Value
  organization : Value
  total_score : Int
  rating : String
  dimension_scores : List (String × Int)

/-- `dataset.get(key)` is truthy. -/
def getFieldTruthy (metadata : Metadata) (key : String) : Bool :=
  match lookupV metadata key with
  | Option.some v => pyTruthy v
  | Option.none => false

/-- The batch driver skips a record without a truthy title or id. -/
def skipRecord (dataset : Metadata) : Bool :=
  !getFieldTruthy dataset "title" || !getFieldTruthy dataset "id"

/-- Build the flat summary row for one successfully scored dataset. -/
def buildRow (dataset : Metadata) (res : MQAResult) : ResultRow :=
  { id := (lookupV dataset "id").getD (Value.str ""),
    title := (lookupV dataset "title").getD (Value.str ""),
    organization :=
      match lookupV dataset "organization" with
      | Option.some (.dict kvs) => (lookupV kvs "title").getD (Value.str "")
      | _ => Value.str "",
    total_score := res.total_score,
    rating := res.rating,
    dimension_scores := res.dimension_scores }

/-- Score one record and build its row (the body of the batch driver's `try`). -/
def rowOf (probe : String → Except Unit Int) (dataset : Metadata) :
    Except Unit ResultRow := do
  let res ← calculate_mqa_score probe dataset
  Except.ok (buildRow dataset res)

/-- The id printed with an error message (`dataset.get('id', 'unknown')`). -/
def errorId (dataset : Metadata) : Value :=
  (lookupV dataset "id").getD (Value.str "unknown")

/-- Whether an `Except` computation succeeded. -/
def exceptIsOk {α : Type} : Except Unit α → Bool
  | Except.ok _ => true
  | Except.error _ => false

/-- `process_datasets(datasets)`: emitted rows in input order, plus the ids of
the records whose scoring raised (the error log printed by the source). -/
def process_datasets (probe : String → Except Unit Int) :
    List Metadata → List ResultRow × List Value
  | [] => ([], [])
  | d :: rest =>
    if skipRecord d then process_datasets probe rest
    else
      match rowOf probe d with
      | Except.ok row =>
        let p := process_datasets probe rest
        (row :: p.1, p.2)
      | Except.error _ =>
        let p := process_datasets probe rest
        (p.1, errorId d :: p.2)

/-! ## Definitions from the spec's words (for the refinement claim C2) -/

/-- Modelled from the spec (§4.4): the dataset-wide Interoperability score,
the sum of the weights of the Interoperability indicators whose predicate
passes on the full dataset record (no per-resource view). -/
def specInteropDatasetScore (metadata : Metadata) : List Indicator → Except Unit Int
  | [] => Except.ok 0
  | ind :: rest => do
    let passed ← ind.check metadata
    let s ← specInteropDatasetScore metadata rest
    Except.ok ((if passed then ind.max_points else 0) + s)

/-! ## Helper lemmas -/

theorem bind_eq_ok_iff {α β : Type} {x : Except Unit α} {f : α → Except Unit β} {r : β} :
    x >>= f = Except.ok r ↔ ∃ a, x = Except.ok a ∧ f a = Except.ok r := by
  cases x with
  | error e =>
    simp [show (Except.error e : Except Unit α) >>= f = Except.error e from rfl]
  | ok a =>
    simp [show (Except.ok a : Except Unit α) >>= f = f a from rfl]

theorem clamp_score_nonneg (v m : Int) : 0 ≤ clamp_score v m :=
  le_max_left 0 _

theorem clamp_score_le (v m : Int) (hm : 0 ≤ m) : clamp_score v m ≤ m :=
  max_le hm (min_le_right _ _)

/-- Structure of a successful `calculate_mqa_score` run: every dimension
evaluation succeeded and the result record is assembled from the five clamped
dimension scores. -/
theorem calculate_ok_shape (probe : String → Except Unit Int) (md : Metadata)
    (res : MQAResult) (h : calculate_mqa_score probe md = Except.ok res) :
    ∃ f a i iD r c,
      scoreIndicators md INDICATORS_FINDABILITY = Except.ok f ∧
      scoreIndicators md (INDICATORS_ACCESSIBILITY probe) = Except.ok a ∧
      get_best_distribution_score md INDICATORS_INTEROPERABILITY = Except.ok i ∧
      indicatorDetails md INDICATORS_INTEROPERABILITY = Except.ok iD ∧
      scoreIndicators md INDICATORS_REUSABILITY = Except.ok r ∧
      scoreIndicators md INDICATORS_CONTEXT = Except.ok c ∧
      res = { dimension_scores := [("Findability", clamp_score f.1 100),
                ("Accessibility", clamp_score a.1 100),
                ("Interoperability", clamp_score i 110),
                ("Reusability", clamp_score r.1 75),
                ("Context", clamp_score c.1 20)],
              total_score := clamp_score f.1 100 + clamp_score a.1 100 +
                clamp_score i 110 + clamp_score r.1 75 + clamp_score c.1 20,
              rating := get_final_rating (clamp_score f.1 100 + clamp_score a.1 100 +
                clamp_score i 110 + clamp_score r.1 75 + clamp_score c.1 20),
              detailed_results := [("Findability", f.2), ("Accessibility", a.2),
                ("Interoperability", iD), ("Reusability", r.2), ("Context", c.2)] } := by
  simp only [calculate_mqa_score, bind_eq_ok_iff] at h
  obtain ⟨f, hf, h⟩ := h
  obtain ⟨a, ha, h⟩ := h
  obtain ⟨i, hi, h⟩ := h
  obtain ⟨iD, hiD, h⟩ := h
  obtain ⟨r, hr, h⟩ := h
  obtain ⟨c, hc, h⟩ := h
  simp only [Except.ok.injEq] at h
  exact ⟨f, a, i, iD, r, c, hf, ha, hi, hiD, hr, hc, h.symm⟩

/-! ## Claim theorems -/

/-- C1: for every dataset record on which scoring succeeds, the result's
total_score is the sum of the five dimension scores (listed in the fixed
order Findability, Accessibility, Interoperability, Reusability, Context),
each dimension score lies between 0 and its ceiling (100/100/110/75/20) —
the clamp enforces this even when summed indicator weights would exceed the
ceiling — and hence 0 ≤ total_score ≤ 405. -/
theorem C1_total_is_clamped_dimension_sum (probe : String → Except Unit Int)
    (md : Metadata) (res : MQAResult)
    (h : calculate_mqa_score probe md = Except.ok res) :
    ∃ f a i r c,
      res.dimension_scores = [("Findability", f), ("Accessibility", a),
        ("Interoperability", i), ("Reusability", r), ("Context", c)] ∧
      res.total_score = f + a + i + r + c ∧
      0 ≤ f ∧ f ≤ 100 ∧ 0 ≤ a ∧ a ≤ 100 ∧ 0 ≤ i ∧ i ≤ 110 ∧
      0 ≤ r ∧ r ≤ 75 ∧ 0 ≤ c ∧ c ≤ 20 ∧
      0 ≤ res.total_score ∧ res.total_score ≤ 405 := by
  obtain ⟨f, a, i, iD, r, c, _, _, _, _, _, _, hres⟩ := calculate_ok_shape probe md res h
  subst hres
  have h1 := clamp_score_nonneg f.1 100
  have h2 := clamp_score_le f.1 100 (by norm_num)
  have h3 := clamp_score_nonneg a.1 100
  have h4 := clamp_score_le a.1 100 (by norm_num)
  have h5 := clamp_score_nonneg i 110
  have h6 := clamp_score_le i 110 (by norm_num)
  have h7 := clamp_score_nonneg r.1 75
  have h8 := clamp_score_le r.1 75 (by norm_num)
  have h9 := clamp_score_nonneg c.1 20
  have h10 := clamp_score_le c.1 20 (by norm_num)
  exact ⟨_, _, _, _, _, rfl, rfl, h1, h2, h3, h4, h5, h6, h7, h8, h9, h10,
    by dsimp only; omega, by dsimp only; omega⟩

/-- Witness for C1: a concrete two-field record scores successfully and its
total lies in [0, 405]. -/
theorem C1_witness :
    0 ≤ ((calculate_mqa_score (fun _ => Except.error ())
        [("id", Value.str "d1"), ("title", Value.str "T")]).toOption.getD
        ⟨[], 0, "", []⟩).total_score ∧
    ((calculate_mqa_score (fun _ => Except.error ())
        [("id", Value.str "d1"), ("title", Value.str "T")]).toOption.getD
        ⟨[], 0, "", []⟩).total_score ≤ 405 := by
  obtain ⟨f, a, i, r, c, _, _, _, _, _, _, _, _, _, _, _, _, hlo, hhi⟩ :=
    C1_total_is_clamped_dimension_sum (fun _ => Except.error ())
      [("id", Value.str "d1"), ("title", Value.str "T")]
      ((calculate_mqa_score (fun _ => Except.error ())
        [("id", Value.str "d1"), ("title", Value.str "T")]).toOption.getD
        ⟨[], 0, "", []⟩)
      (by rfl)
  exact ⟨hlo, hhi⟩

/-- C3: the rating classifier maps 0–120 to "Mangelhaft" (Poor), 121–220 to
"Ausreichend" (Sufficient), 221–350 to "Gut" (Good), 351–405 to
"Ausgezeichnet" (Excellent), and any score outside 0–405 falls through to
"Mangelhaft" (Poor); the six quoted sample values behave accordingly. -/
theorem C3_rating_bands (s : Int) :
    (0 ≤ s → s ≤ 120 → get_final_rating s = "Mangelhaft") ∧
    (121 ≤ s → s ≤ 220 → get_final_rating s = "Ausreichend") ∧
    (221 ≤ s → s ≤ 350 → get_final_rating s = "Gut") ∧
    (351 ≤ s → s ≤ 405 → get_final_rating s = "Ausgezeichnet") ∧
    (s < 0 → get_final_rating s = "Mangelhaft") ∧
    (405 < s → get_final_rating s = "Mangelhaft") ∧
    get_final_rating 0 = "Mangelhaft" ∧ get_final_rating 120 = "Mangelhaft" ∧
    get_final_rating 121 = "Ausreichend" ∧ get_final_rating 350 = "Gut" ∧
    get_final_rating 351 = "Ausgezeichnet" ∧ get_final_rating 405 = "Ausgezeichnet" := by
  refine ⟨?_, ?_, ?_, ?_, ?_, ?_, by decide, by decide, by decide, by decide,
    by decide, by decide⟩ <;>
    intro h1 <;> unfold get_final_rating <;> first
      | (intro h2; split_ifs with ha hb hc <;> first | rfl | omega)
      | (split_ifs with ha hb hc <;> first | rfl | omega)

/-- Witness for C3: the theorem applied at score 100 yields "Mangelhaft". -/
theorem C3_witness : get_final_rating 100 = "Mangelhaft" :=
  (C3_rating_bands 100).1 (by norm_num) (by norm_num)

/-- Counterexample to C4: the source compares the lower-cased string against
the sentinel set WITHOUT trimming. The value " null " trims (then lowers) to
the sentinel "null", so the claim says the presence check returns false; the
code returns true. -/
theorem C4_counterexample :
    check_presence [("f", Value.str " null ")] "f" = true ∧
    HIDDEN_NULLS.contains (pyLower (pyStrip " null ")) = true := by
  exact ⟨by decide, by decide⟩

/-- C4 as amended: the presence check returns false exactly when the field is
absent, or null, or a string whose lower-casing (without any trimming) is one
of the fixed hidden-null sentinels or which consists only of whitespace, or an
empty list, a list whose every element is falsy, or an empty mapping. -/
theorem C4_presence_false_characterization (md : Metadata) (f : String) :
    check_presence md f = false ↔
      lookupV md f = Option.none ∨
      lookupV md f = Option.some Value.none ∨
      (∃ s, lookupV md f = Option.some (Value.str s) ∧
        (HIDDEN_NULLS.contains (pyLower s) = true ∨ isBlank s = true)) ∨
      (∃ l, lookupV md f = Option.some (Value.list l) ∧
        (l = [] ∨ l.all (fun item => !pyTruthy item) = true)) ∨
      (∃ kvs, lookupV md f = Option.some (Value.dict kvs) ∧ kvs = []) := by
  unfold check_presence
  cases hv : lookupV md f with
  | none => simp
  | some v =>
    cases v with
    | none => simp [presentValue]
    | bool b => simp [presentValue]
    | int n => simp [presentValue]
    | str s =>
      simp [presentValue]
      tauto
    | list l =>
      simp [presentValue, List.isEmpty_iff]
      tauto
    | dict kvs => simp [presentValue, List.isEmpty_iff]

/-- Counterexample to C5: the source only tests whether the lower-cased format
is contained IN a MIME entry, never the reverse direction the claim asserts.
The string "application/geopackage+sqlite3!" strictly contains the registry
entry "application/geopackage+sqlite3" (so the claim says true) but matches no
common-format token and is contained in no MIME entry, so the code returns
false. -/
theorem C5_counterexample :
    check_format_in_register "application/geopackage+sqlite3!" = false ∧
    ACCEPTED_MIME_TYPES.contains "application/geopackage+sqlite3" = true ∧
    strIn (pyLower "application/geopackage+sqlite3")
      (pyLower "application/geopackage+sqlite3!") = true := by
  exact ⟨by decide, by decide, by decide⟩

/-- C5 as amended: the format registry check returns false for empty input and
otherwise returns true iff the lower-cased format string is contained in some
(lower-cased) accepted-MIME-type entry — one direction only — or exactly
equals, or contains as a substring, some entry of the common-format-token
list. -/
theorem C5_format_register_characterization (fv : String) :
    check_format_in_register fv = true ↔
      fv ≠ "" ∧
      (ACCEPTED_MIME_TYPES.any (fun mime => strIn (pyLower fv) (pyLower mime)) = true ∨
       COMMON_FORMATS.contains (pyLower fv) = true ∨
       COMMON_FORMATS.any (fun fmt => strIn fmt (pyLower fv)) = true) := by
  unfold check_format_in_register
  rcases eq_or_ne fv "" with rfl | hne
  · simp
  · simp only [if_neg hne]
    split_ifs with hA hB
    · simp [hne, hA]
    · simp [hne, hA, hB]
      exact Or.inl (by simpa using hB)
    · simp [hne, hA, hB]
      intro hmem
      exact absurd hmem (by simpa using hB)

/-- C7: the embedded reachability check is a total function (it cannot raise);
it returns true exactly when the probe returns a status code below 400, and
returns false whenever the probe raises or returns a status code ≥ 400. -/
theorem C7_url_accessibility (probe : String → Except Unit Int) (url : String) :
    (is_url_accessible probe url = true ↔
      ∃ code, probe url = Except.ok code ∧ code < 400) ∧
    (∀ e, probe url = Except.error e → is_url_accessible probe url = false) ∧
    (∀ code, probe url = Except.ok code → 400 ≤ code →
      is_url_accessible probe url = false) := by
  refine ⟨?_, ?_, ?_⟩
  · unfold is_url_accessible
    cases hp : probe url with
    | error e => simp
    | ok code => simp
  · intro e he
    unfold is_url_accessible
    rw [he]
  · intro code hc h4
    unfold is_url_accessible
    rw [hc]
    simp
    omega

/-- Witness for C7: a probe that returns status 500 makes the URL
unreachable. -/
theorem C7_witness :
    is_url_accessible (fun _ => Except.ok 500) "https://datenregister.berlin.de" = false :=
  (C7_url_accessibility (fun _ => Except.ok 500) "https://datenregister.berlin.de").2.2
    500 rfl (by norm_num)

/-- C9: a present field whose value is neither None nor a string, list or
mapping — i.e. an int or a bool in this data model, including 0 and false —
always counts as present. -/
theorem C9_presence_other_types (md : Metadata) (f : String) :
    (∀ n : Int, lookupV md f = Option.some (Value.int n) →
      check_presence md f = true) ∧
    (∀ b : Bool, lookupV md f = Option.some (Value.bool b) →
      check_presence md f = true) := by
  constructor <;> intro x hx <;> unfold check_presence <;> rw [hx] <;> rfl

/-- Witness for C9: the number 0 counts as present. -/
theorem C9_witness : check_presence [("x", Value.int 0)] "x" = true :=
  (C9_presence_other_types [("x", Value.int 0)] "x").1 0 rfl

theorem toLower_whitespace (c : Char) (h : c.isWhitespace = true) :
    (Char.toLower c).isWhitespace = true := by
  unfold Char.isWhitespace at h
  simp only [Bool.or_eq_true, decide_eq_true_eq] at h
  rcases h with ((h | h) | h) | h <;> subst h <;> decide

theorem isBlank_pyLower (s : String) (h : isBlank s = true) :
    isBlank (pyLower s) = true := by
  unfold isBlank pyLower at *
  simp only [List.all_eq_true] at *
  intro c hc
  rw [List.mem_map] at hc
  obtain ⟨c0, hc0, rfl⟩ := hc
  exact toLower_whitespace c0 (h c0 hc0)

theorem present_of_lower_eq (s lit : String) (hlow : pyLower s = lit)
    (hnull : HIDDEN_NULLS.contains lit = false) (hblank : isBlank lit = false) :
    presentValue (Value.str s) = true := by
  have hb : isBlank s = false := by
    cases hsb : isBlank s
    · rfl
    · have hbl := isBlank_pyLower s hsb
      rw [hlow] at hbl
      rw [hbl] at hblank
      cases hblank
  show (!(HIDDEN_NULLS.contains (pyLower s) || isBlank s)) = true
  rw [hlow, hnull, hb]
  rfl

/-- C8: for every dataset whose license_id is a string that lower-cases to a
lower-cased entry of the fixed valid-license list (e.g. "dl-de-by-2.0"), both
the License indicator (weight 20, first Reusability indicator) and the
License-vocabulary indicator (weight 10, second Reusability indicator)
pass. -/
theorem C8_license_indicators (md : Metadata) (s : String)
    (hlook : lookupV md "license_id" = Option.some (Value.str s))
    (hvalid : (VALID_DCAT_AP_DE_LICENSES.map pyLower).contains (pyLower s) = true) :
    reuse_license_check md = Except.ok true ∧
    reuse_license_vocab_check md = Except.ok true ∧
    ∃ i0 i1, INDICATORS_REUSABILITY[0]? = Option.some i0 ∧
      INDICATORS_REUSABILITY[1]? = Option.some i1 ∧
      i0.max_points = 20 ∧ i0.check md = Except.ok true ∧
      i1.max_points = 10 ∧ i1.check md = Except.ok true := by
  have hmap : VALID_DCAT_AP_DE_LICENSES.map pyLower =
      ["cc-zero", "cc-by", "cc-by-sa", "cc-by/4.0", "cc-nc", "dl-de-zero-2.0",
       "dl-de-by-2.0", "odc-odbl", "cc by 3.0 de", "other-closed"] := by decide
  have hpres : check_presence md "license_id" = true := by
    unfold check_presence
    rw [hlook]
    rw [hmap] at hvalid
    have hmem : pyLower s ∈ ["cc-zero", "cc-by", "cc-by-sa", "cc-by/4.0", "cc-nc",
        "dl-de-zero-2.0", "dl-de-by-2.0", "odc-odbl", "cc by 3.0 de",
        "other-closed"] := List.elem_iff.mp hvalid
    simp only [List.mem_cons, List.not_mem_nil, or_false] at hmem
    rcases hmem with h | h | h | h | h | h | h | h | h | h <;>
      exact present_of_lower_eq s _ h (by decide) (by decide)
  have hlic : reuse_license_check md = Except.ok true := by
    unfold reuse_license_check
    rw [hpres]
  have hvc : reuse_license_vocab_check md = Except.ok true := by
    unfold reuse_license_vocab_check
    rw [hpres, hlook]
    simp only [if_true]
    rw [hvalid]
  exact ⟨hlic, hvc, _, _, rfl, rfl, rfl, hlic, rfl, hvc⟩

/-- Witness for C8: a record with license_id "dl-de-by-2.0" passes both
license indicators. -/
theorem C8_witness :
    reuse_license_check [("license_id", Value.str "dl-de-by-2.0")] = Except.ok true ∧
    reuse_license_vocab_check [("license_id", Value.str "dl-de-by-2.0")] = Except.ok true :=
  ⟨(C8_license_indicators [("license_id", Value.str "dl-de-by-2.0")]
      "dl-de-by-2.0" rfl (by decide)).1,
   (C8_license_indicators [("license_id", Value.str "dl-de-by-2.0")]
      "dl-de-by-2.0" rfl (by decide)).2.1⟩

theorem lookupV_dictSet_ne (md : Metadata) (k k2 : String) (v : Value) (h : k2 ≠ k) :
    lookupV (dictSet md k v) k2 = lookupV md k2 := by
  induction md with
  | nil =>
    show lookupV [(k, v)] k2 = Option.none
    unfold lookupV
    rw [if_neg (fun he => h he.symm)]
    rfl
  | cons kv rest ih =>
    obtain ⟨k0, v0⟩ := kv
    show lookupV (if k0 = k then (k, v) :: rest else (k0, v0) :: dictSet rest k v) k2 = _
    by_cases hk : k0 = k
    · rw [if_pos hk]
      show (if k = k2 then Option.some v else lookupV rest k2) =
        (if k0 = k2 then Option.some v0 else lookupV rest k2)
      rw [if_neg (fun he => h he.symm), hk, if_neg (fun he => h he.symm)]
    · rw [if_neg hk]
      show (if k0 = k2 then Option.some v0 else lookupV (dictSet rest k v) k2) =
        (if k0 = k2 then Option.some v0 else lookupV rest k2)
      by_cases h02 : k0 = k2
      · rw [if_pos h02, if_pos h02]
      · rw [if_neg h02, if_neg h02]
        exact ih

theorem check_presence_dictSet_resource (md : Metadata) (r : Value) (f : String)
    (h : f ≠ "resource") :
    check_presence (dictSet md "resource" r) f = check_presence md f := by
  unfold check_presence
  rw [lookupV_dictSet_ne md "resource" f r h]

theorem extractResourceField_dictSet_resource (key : String) (md : Metadata) (r : Value) :
    extractResourceField key (dictSet md "resource" r) = extractResourceField key md := by
  unfold extractResourceField
  rw [lookupV_dictSet_ne md "resource" "resources" r (by decide)]

theorem interop_format_check_dictSet (md : Metadata) (r : Value) :
    interop_format_check (dictSet md "resource" r) = interop_format_check md := by
  unfold interop_format_check
  simp only [extract_resources_formats]
  rw [check_presence_dictSet_resource md r "resources" (by decide),
    extractResourceField_dictSet_resource "format" md r]

theorem interop_mediatype_check_dictSet (md : Metadata) (r : Value) :
    interop_mediatype_check (dictSet md "resource" r) = interop_mediatype_check md := by
  unfold interop_mediatype_check
  simp only [extract_resources_mimetypes]
  rw [check_presence_dictSet_resource md r "resources" (by decide),
    extractResourceField_dictSet_resource "mimetype" md r]

theorem interop_vocab_check_dictSet (md : Metadata) (r : Value) :
    interop_vocab_check (dictSet md "resource" r) = interop_vocab_check md := by
  unfold interop_vocab_check
  simp only [extract_resources_formats, extract_resources_mimetypes]
  rw [check_presence_dictSet_resource md r "resources" (by decide),
    extractResourceField_dictSet_resource "format" md r,
    extractResourceField_dictSet_resource "mimetype" md r]

theorem interop_nonproprietary_check_dictSet (md : Metadata) (r : Value) :
    interop_nonproprietary_check (dictSet md "resource" r) =
      interop_nonproprietary_check md := by
  unfold interop_nonproprietary_check
  simp only [extract_resources_formats]
  rw [check_presence_dictSet_resource md r "resources" (by decide),
    extractResourceField_dictSet_resource "format" md r]

theorem interop_machine_readable_check_dictSet (md : Metadata) (r : Value) :
    interop_machine_readable_check (dictSet md "resource" r) =
      interop_machine_readable_check md := by
  unfold interop_machine_readable_check
  simp only [extract_resources_formats]
  rw [check_presence_dictSet_resource md r "resources" (by decide),
    extractResourceField_dictSet_resource "format" md r]

/-- Every Interoperability indicator predicate reads only the dataset's
aggregate "resources" field, so the synthetic per-resource view scores
exactly the dataset-wide sum. -/
theorem distributionScore_eq_spec (md : Metadata) (r : Value) :
    distributionScore md r INDICATORS_INTEROPERABILITY =
      specInteropDatasetScore md INDICATORS_INTEROPERABILITY := by
  simp only [INDICATORS_INTEROPERABILITY, distributionScore, specInteropDatasetScore,
    interop_format_check_dictSet, interop_mediatype_check_dictSet,
    interop_vocab_check_dictSet, interop_nonproprietary_check_dictSet,
    interop_machine_readable_check_dictSet, interop_conformity_check]

theorem bestLoop_const_ok (md : Metadata) (inds : List Indicator) (n : Int)
    (hsc : ∀ r, distributionScore md r inds = Except.ok n) :
    ∀ (l : List Value) (best : Int), l ≠ [] →
      bestDistributionLoop md inds l best = Except.ok (max best n) := by
  intro l
  induction l with
  | nil => intro best h; exact absurd rfl h
  | cons r rest ih =>
    intro best _
    unfold bestDistributionLoop
    rw [hsc r]
    show bestDistributionLoop md inds rest (max best n) = Except.ok (max best n)
    rcases rest with _ | ⟨r2, rest2⟩
    · rfl
    · rw [ih (max best n) (by simp)]
      rw [max_assoc, max_self]

theorem specScore_nonneg (md : Metadata) :
    ∀ (inds : List Indicator), (∀ ind ∈ inds, 0 ≤ ind.max_points) →
      ∀ n, specInteropDatasetScore md inds = Except.ok n → 0 ≤ n := by
  intro inds
  induction inds with
  | nil =>
    intro _ n h
    simp only [specInteropDatasetScore, Except.ok.injEq] at h
    omega
  | cons ind rest ih =>
    intro hw n h
    simp only [specInteropDatasetScore, bind_eq_ok_iff] at h
    obtain ⟨b, _, s, hs, h⟩ := h
    simp only [Except.ok.injEq] at h
    subst h
    have h1 : 0 ≤ s := ih (fun i hi => hw i (List.mem_cons_of_mem _ hi)) s hs
    have h2 : 0 ≤ ind.max_points := hw ind (List.mem_cons_self _ _)
    cases b <;> simp <;> omega

theorem interop_weights_nonneg :
    ∀ ind ∈ INDICATORS_INTEROPERABILITY, 0 ≤ ind.max_points := by
  intro ind h
  simp only [INDICATORS_INTEROPERABILITY, List.mem_cons, List.not_mem_nil,
    or_false] at h
  rcases h with rfl | rfl | rfl | rfl | rfl | rfl <;> norm_num

/-- C2: the realized Interoperability score is the best-of-resource maximum —
0 when the "resources" field is absent or falsy — and, because every
Interoperability predicate inspects the dataset's aggregate resource list,
every resource of a non-empty resources list yields the same resource-local
score, namely the dataset-wide sum of passing indicator weights, so the
realized score is that sum clamped to 110. -/
theorem C2_interoperability_best_of_resource (probe : String → Except Unit Int)
    (md : Metadata) :
    ((lookupV md "resources" = Option.none ∨
      (∃ v, lookupV md "resources" = Option.some v ∧ pyTruthy v = false)) →
      get_best_distribution_score md INDICATORS_INTEROPERABILITY = Except.ok 0) ∧
    (∀ rs, lookupV md "resources" = Option.some (Value.list rs) → rs ≠ [] →
      (∀ r ∈ rs, distributionScore md r INDICATORS_INTEROPERABILITY =
        specInteropDatasetScore md INDICATORS_INTEROPERABILITY) ∧
      get_best_distribution_score md INDICATORS_INTEROPERABILITY =
        specInteropDatasetScore md INDICATORS_INTEROPERABILITY) ∧
    (∀ res n, calculate_mqa_score probe md = Except.ok res →
      get_best_distribution_score md INDICATORS_INTEROPERABILITY = Except.ok n →
      ∃ f a r c, res.dimension_scores = [("Findability", f), ("Accessibility", a),
        ("Interoperability", clamp_score n 110), ("Reusability", r), ("Context", c)]) := by
  refine ⟨?_, ?_, ?_⟩
  · rintro (h | ⟨v, hv, htr⟩)
    · simp [get_best_distribution_score, h]
    · simp [get_best_distribution_score, hv, htr]
  · intro rs hrs hne
    refine ⟨fun r _ => distributionScore_eq_spec md r, ?_⟩
    unfold get_best_distribution_score
    rw [hrs]
    have htr : pyTruthy (Value.list rs) = true := by
      rcases rs with _ | ⟨r0, rest⟩
      · exact absurd rfl hne
      · rfl
    simp only [htr, if_true]
    show bestDistributionLoop md INDICATORS_INTEROPERABILITY rs 0 =
      specInteropDatasetScore md INDICATORS_INTEROPERABILITY
    cases hE : specInteropDatasetScore md INDICATORS_INTEROPERABILITY with
    | error e =>
      rcases rs with _ | ⟨r0, rest⟩
      · exact absurd rfl hne
      · unfold bestDistributionLoop
        rw [distributionScore_eq_spec md r0, hE]
        rfl
    | ok n =>
      have h0 : 0 ≤ n :=
        specScore_nonneg md INDICATORS_INTEROPERABILITY interop_weights_nonneg n hE
      rw [bestLoop_const_ok md INDICATORS_INTEROPERABILITY n
        (fun r => by rw [distributionScore_eq_spec md r, hE]) rs 0 hne]
      rw [max_eq_right h0]
  · intro res n hok hg
    obtain ⟨f, a, i, iD, r, c, _, _, hi, _, _, _, hres⟩ :=
      calculate_ok_shape probe md res hok
    rw [hi] at hg
    simp only [Except.ok.injEq] at hg
    subst hres
    exact ⟨_, _, _, _, by rw [hg]⟩

/-- Witness for C2: a one-resource CSV dataset realizes the dataset-wide
Interoperability sum (100 points) as its best-of-resource score. -/
theorem C2_witness :
    get_best_distribution_score
      [("resources", Value.list [Value.dict [("format", Value.str "CSV")]])]
      INDICATORS_INTEROPERABILITY =
    specInteropDatasetScore
      [("resources", Value.list [Value.dict [("format", Value.str "CSV")]])]
      INDICATORS_INTEROPERABILITY :=
  ((C2_interoperability_best_of_resource (fun _ => Except.error ())
      [("resources", Value.list [Value.dict [("format", Value.str "CSV")]])]).2.1
    [Value.dict [("format", Value.str "CSV")]] rfl
    (List.cons_ne_nil _ _)).2

theorem gbds_zero_of_absent_or_falsy (md : Metadata)
    (h : lookupV md "resources" = Option.none ∨
      (∃ v, lookupV md "resources" = Option.some v ∧ pyTruthy v = false)) :
    get_best_distribution_score md INDICATORS_INTEROPERABILITY = Except.ok 0 := by
  rcases h with h | ⟨v, hv, htr⟩
  · simp [get_best_distribution_score, h]
  · simp [get_best_distribution_score, hv, htr]

theorem indicatorDetails_interop_structure (md : Metadata) (iD : List IndicatorDetail)
    (h : indicatorDetails md INDICATORS_INTEROPERABILITY = Except.ok iD) :
    ∃ b1 b2 b3 b4 b5,
      iD = [⟨"Format", "dct:format", 20, if b1 then 20 else 0, b1⟩,
        ⟨"Media Type (Medientyp)", "dcat:mediaType", 10, if b2 then 10 else 0, b2⟩,
        ⟨"Format/Media Type from Vocabulary (Format/Medientyp aus Vokabular)",
          "format_media_vocab_check", 10, if b3 then 10 else 0, b3⟩,
        ⟨"Non-proprietary (Nicht-proprietär)", "non_proprietary_format_check",
          20, if b4 then 20 else 0, b4⟩,
        ⟨"Machine-readability (Maschinenlesbarkeit)", "machine_readable_format_check",
          20, if b5 then 20 else 0, b5⟩,
        ⟨"DCAT-AP.de Conformity (DCAT-AP.de Konformität)", "dcat_ap_de_conformance",
          30, 30, true⟩] := by
  simp only [INDICATORS_INTEROPERABILITY, indicatorDetails, interop_conformity_check,
    bind_eq_ok_iff, Except.ok.injEq] at h
  obtain ⟨b1, hb1, t1, ⟨b2, hb2, t2, ⟨b3, hb3, t3, ⟨b4, hb4, t4, ⟨b5, hb5, t5,
    ⟨b6, hb6, t6, ht6, ht5⟩, ht4⟩, ht3⟩, ht2⟩, ht1⟩, h0⟩ := h
  subst ht6 ht5 ht4 ht3 ht2 ht1 hb6
  exact ⟨b1, b2, b3, b4, b5, h0.symm⟩

/-- C10: when the "resources" field is absent or falsy, the realized
Interoperability dimension score is 0, yet the recorded Interoperability
breakdown still lists the unconditionally-true DCAT-AP.de Conformity
indicator as passed with 30 points, so the breakdown's point sum (≥ 30)
exceeds the realized dimension score. -/
theorem C10_conformity_detail_exceeds_score (probe : String → Except Unit Int)
    (md : Metadata) (res : MQAResult)
    (h : calculate_mqa_score probe md = Except.ok res)
    (hres : lookupV md "resources" = Option.none ∨
      (∃ v, lookupV md "resources" = Option.some v ∧ pyTruthy v = false)) :
    (∃ f a r c, res.dimension_scores = [("Findability", f), ("Accessibility", a),
      ("Interoperability", 0), ("Reusability", r), ("Context", c)]) ∧
    (∃ fD aD iDet rD cD,
      res.detailed_results = [("Findability", fD), ("Accessibility", aD),
        ("Interoperability", iDet), ("Reusability", rD), ("Context", cD)] ∧
      (∃ d ∈ iDet, d.indicator = "DCAT-AP.de Conformity (DCAT-AP.de Konformität)" ∧
        d.passed = true ∧ d.points = 30) ∧
      30 ≤ (iDet.map (fun d => d.points)).sum ∧
      0 < (iDet.map (fun d => d.points)).sum) := by
  obtain ⟨f, a, i, iD, r, c, _, _, hi, hiD, _, _, hshape⟩ :=
    calculate_ok_shape probe md res h
  have hzero := gbds_zero_of_absent_or_falsy md hres
  rw [hzero] at hi
  simp only [Except.ok.injEq] at hi
  obtain ⟨b1, b2, b3, b4, b5, hdet⟩ := indicatorDetails_interop_structure md iD hiD
  subst hshape hdet
  subst hi
  constructor
  · exact ⟨clamp_score f.1 100, clamp_score a.1 100, clamp_score r.1 75,
      clamp_score c.1 20,
      by dsimp only; rw [show clamp_score 0 110 = 0 from by decide]⟩
  · refine ⟨f.2, a.2, _, r.2, c.2, rfl, ⟨⟨"DCAT-AP.de Conformity (DCAT-AP.de Konformität)",
      "dcat_ap_de_conformance", 30, 30, true⟩, by simp, rfl, rfl, rfl⟩, ?_, ?_⟩ <;>
      cases b1 <;> cases b2 <;> cases b3 <;> cases b4 <;> cases b5 <;> decide

/-- Witness for C10: a record without a "resources" field realizes
Interoperability score 0. -/
theorem C10_witness :
    ∃ f a r c,
      ((calculate_mqa_score (fun _ => Except.error ())
          [("id", Value.str "x"), ("title", Value.str "T")]).toOption.getD
          ⟨[], 0, "", []⟩).dimension_scores =
        [("Findability", f), ("Accessibility", a), ("Interoperability", 0),
         ("Reusability", r), ("Context", c)] :=
  (C10_conformity_detail_exceeds_score (fun _ => Except.error ())
    [("id", Value.str "x"), ("title", Value.str "T")]
    ((calculate_mqa_score (fun _ => Except.error ())
      [("id", Value.str "x"), ("title", Value.str "T")]).toOption.getD
      ⟨[], 0, "", []⟩)
    (by rfl) (Or.inl rfl)).1

theorem process_datasets_rows (probe : String → Except Unit Int) :
    ∀ ds : List Metadata, (process_datasets probe ds).1 =
      ds.filterMap (fun d =>
        if skipRecord d then Option.none else (rowOf probe d).toOption) := by
  intro ds
  induction ds with
  | nil => rfl
  | cons d rest ih =>
    unfold process_datasets
    by_cases h : skipRecord d = true
    · simp [h, List.filterMap_cons, ih]
    · cases hr : rowOf probe d with
      | ok row =>
        simp [h, hr, List.filterMap_cons, ih, Except.toOption]
      | error e =>
        simp [h, hr, List.filterMap_cons, ih, Except.toOption]

theorem process_datasets_errors (probe : String → Except Unit Int) :
    ∀ ds : List Metadata, (process_datasets probe ds).2 =
      ds.filterMap (fun d =>
        if skipRecord d then Option.none
        else match rowOf probe d with
          | Except.ok _ => Option.none
          | Except.error _ => Option.some (errorId d)) := by
  intro ds
  induction ds with
  | nil => rfl
  | cons d rest ih =>
    unfold process_datasets
    by_cases h : skipRecord d = true
    · simp [h, List.filterMap_cons, ih]
    · cases hr : rowOf probe d with
      | ok row => simp [h, hr, List.filterMap_cons, ih]
      | error e => simp [h, hr, List.filterMap_cons, ih]

/-- C6: the batch driver emits, in input order, exactly one row per
non-skipped record whose scoring succeeded; records without a truthy id or
title are skipped without producing a row or an error entry; records whose
scoring raised produce an error entry (their id) instead of a row; and a
single failing record never aborts the batch — the rows of the surrounding
records are exactly those of the batch without it. -/
theorem C6_batch_driver_tolerates_failures (probe : String → Except Unit Int)
    (ds : List Metadata) :
    ((process_datasets probe ds).1 = ds.filterMap (fun d =>
      if skipRecord d then Option.none else (rowOf probe d).toOption) ∧
     (process_datasets probe ds).2 = ds.filterMap (fun d =>
      if skipRecord d then Option.none
      else match rowOf probe d with
        | Except.ok _ => Option.none
        | Except.error _ => Option.some (errorId d))) ∧
    (∀ xs ys bad, skipRecord bad = false →
      exceptIsOk (rowOf probe bad) = false →
      (process_datasets probe (xs ++ bad :: ys)).1 =
        (process_datasets probe xs).1 ++ (process_datasets probe ys).1) := by
  refine ⟨⟨process_datasets_rows probe ds, process_datasets_errors probe ds⟩, ?_⟩
  intro xs ys bad hskip hfail
  rw [process_datasets_rows probe, process_datasets_rows probe,
    process_datasets_rows probe, List.filterMap_append, List.filterMap_cons]
  cases hr : rowOf probe bad with
  | ok row =>
    rw [hr] at hfail
    exact absurd hfail (by simp [exceptIsOk])
  | error e =>
    simp [hskip, hr, Except.toOption]

/-- Witness for C6: a batch whose middle record raises (its "resources" field
is the non-iterable number 1) still yields the rows of the surrounding
records. -/
theorem C6_witness :
    (process_datasets (fun _ => Except.error ())
      ([[("id", Value.str "a"), ("title", Value.str "A")]] ++
        [("id", Value.str "bad"), ("title", Value.str "B"),
         ("resources", Value.int 1)] ::
        [[("id", Value.str "c"), ("title", Value.str "C")]])).1 =
    (process_datasets (fun _ => Except.error ())
      [[("id", Value.str "a"), ("title", Value.str "A")]]).1 ++
    (process_datasets (fun _ => Except.error ())
      [[("id", Value.str "c"), ("title", Value.str "C")]]).1 :=
  (C6_batch_driver_tolerates_failures (fun _ => Except.error ()) []).2
    [[("id", Value.str "a"), ("title", Value.str "A")]]
    [[("id", Value.str "c"), ("title", Value.str "C")]]
    [("id", Value.str "bad"), ("title", Value.str "B"), ("resources", Value.int 1)]
    rfl rfl

end MQA
